import Mathlib

/-!
Verification of the conversion core of app.py (Smart Converter).

Shallow embedding. Python strings are Lean strings; only ASCII behaviour
of lower() and isdigit() is exercised by the inputs considered, so
Char.toLower and Char.isDigit are faithful models there. Python floats
are modelled as exact scaled decimals (PyFloat): every arithmetic
operation appearing in the claims proved below (values parsed from short
decimal tokens, multiplied by the integer 100 or by the literals 0.93
and 278.50) is exact in IEEE double precision and produces a result
whose shortest repr is its decimal expansion, so the decimal model
agrees with the float semantics on those inputs. Streamlit display calls
(st.warning, st.error) do not raise; they are modelled as notices
collected in the output. The outbound HTTP and AI calls are modelled as
explicit input data (HttpResult, an Except value) fed to the functions.
-/

/-- Exact decimal model of a nonnegative Python float: the value
n divided by ten to the k. -/
structure PyFloat where
  n : Nat
  k : Nat
deriving DecidableEq

/-- Multiplication of exact decimals, the model of float multiplication
in the cases where it is exact. -/
def pyMul (a b : PyFloat) : PyFloat :=
  ⟨a.n * b.n, a.k + b.k⟩

/-- Drop trailing decimal zeros of a scaled decimal, keeping its
value. -/
def stripZeros : Nat → Nat → Nat × Nat
  | n, 0 => (n, 0)
  | n, k + 1 => if n % 10 = 0 then stripZeros (n / 10) k else (n, k + 1)

/-- Decimal rendering of a PyFloat, matching the Python str rendering of
a float whose value is an exact decimal: integral values print with a
trailing point zero, others print their shortest decimal expansion. -/
def pyFloatRepr (x : PyFloat) : String :=
  let p := stripZeros x.n x.k
  if p.2 = 0 then toString p.1 ++ ".0"
  else
    let ds := (toString p.1).toList
    let ds := if ds.length < p.2 + 1 then List.replicate (p.2 + 1 - ds.length) '0' ++ ds else ds
    String.mk (ds.take (ds.length - p.2)) ++ "." ++ String.mk (ds.drop (ds.length - p.2))

/-- Lower-case a string character by character, as Python str.lower does
on ASCII text. -/
def strLower (s : String) : String :=
  String.mk (s.toList.map Char.toLower)

/-- Accumulator pass of whitespace tokenization: the first argument is
the reversed current word. -/
def wordsAux : List Char → List Char → List String
  | cur, [] => if cur.isEmpty then [] else [String.mk cur.reverse]
  | cur, c :: cs =>
    if c.isWhitespace then
      if cur.isEmpty then wordsAux [] cs
      else String.mk cur.reverse :: wordsAux [] cs
    else wordsAux (c :: cur) cs

/-- Whitespace tokenization, as Python str.split with no argument: split
on runs of whitespace and drop empty pieces. -/
def toWords (s : String) : List String :=
  wordsAux [] s.toList

/-- Whether the first character list starts the second one. -/
def leadsChars : List Char → List Char → Bool
  | [], _ => true
  | _ :: _, [] => false
  | a :: as, b :: bs => a = b && leadsChars as bs

/-- Whether the first character list occurs contiguously inside the
second one. -/
def occursChars : List Char → List Char → Bool
  | n, [] => n.isEmpty
  | n, h :: hs => leadsChars n (h :: hs) || occursChars n hs

/-- Substring test, as the Python expression needle in haystack. -/
def strContains (haystack needle : String) : Bool :=
  occursChars needle.toList haystack.toList

/-- Remove the first occurrence of a dot, as Python replace with count 1
applied to a dot. -/
def stripFirstDot : List Char → List Char
  | [] => []
  | c :: cs => if c = '.' then cs else c :: stripFirstDot cs

/-- The numeric-token test of handle_conversion_fallback, line 111 of
app.py: word.replace of the first dot, then isdigit, which requires a
nonempty all-digit string. -/
def isNumTok (w : String) : Bool :=
  let s := stripFirstDot w.toList
  !s.isEmpty && s.all Char.isDigit

/-- Split a token at its first dot into integer and fractional digit
lists. -/
def splitFirstDot : List Char → List Char × List Char
  | [] => ([], [])
  | c :: cs =>
    if c = '.' then ([], cs)
    else
      let p := splitFirstDot cs
      (c :: p.1, p.2)

/-- Value of a digit list read in base 10. -/
def digitsToNat (l : List Char) : Nat :=
  l.foldl (fun n c => 10 * n + (c.toNat - '0'.toNat)) 0

/-- Value of a numeric token, as Python float applied to a token made of
digits and at most one dot. -/
def parseVal (w : String) : PyFloat :=
  let p := splitFirstDot w.toList
  ⟨digitsToNat p.1 * 10 ^ p.2.length + digitsToNat p.2, p.2.length⟩

/-- Format string of the meter branch, line 114 of app.py. -/
def fmtMeters (v : PyFloat) : String :=
  pyFloatRepr v ++ " meters = " ++ pyFloatRepr (pyMul v ⟨100, 0⟩) ++ " centimeters"

/-- Format string of the euro branch, line 121 of app.py; the float
literal 0.93 is the exact decimal 93 over ten squared. -/
def fmtEur (v : PyFloat) : String :=
  pyFloatRepr v ++ " USD ≈ " ++ pyFloatRepr (pyMul v ⟨93, 2⟩) ++ " EUR"

/-- Format string of the rupee branch, line 123 of app.py; the float
literal 278.50 is the exact decimal 27850 over ten squared. -/
def fmtPkr (v : PyFloat) : String :=
  pyFloatRepr v ++ " USD ≈ " ++ pyFloatRepr (pyMul v ⟨27850, 2⟩) ++ " PKR"

/-- The advisory message returned when no rule matches, line 127 of
app.py. -/
def could_not_process_msg : String :=
  "I couldn't process this conversion. Please try using the selection interface."

/-- The loop of the meter branch of handle_conversion_fallback, lines
110 to 115 of app.py: scan the lowered tokens, and at the first numeric
token compute the result string, or the empty string when the inner
keyword check fails, then stop. -/
def scanMeters (prompt : String) : List String → String
  | [] => ""
  | w :: ws =>
    if isNumTok w then
      if strContains prompt "meter" && strContains prompt "centimeter" then
        fmtMeters (parseVal w)
      else ""
    else scanMeters prompt ws

/-- The loop of the dollar branch of handle_conversion_fallback, lines
117 to 124 of app.py. -/
def scanDollar (prompt : String) : List String → String
  | [] => ""
  | w :: ws =>
    if isNumTok w then
      if strContains prompt "euro" || strContains prompt "eur" then
        fmtEur (parseVal w)
      else if strContains prompt "pkr" || strContains prompt "rupee" then
        fmtPkr (parseVal w)
      else ""
    else scanDollar prompt ws

/-- handle_conversion_fallback from app.py, lines 104 to 129. Keyword
containment is tested on the original prompt; only the token list is
lower-cased. An empty result at the end becomes the advisory message. -/
def handle_conversion_fallback (prompt : String) : String :=
  let words := toWords (strLower prompt)
  let result :=
    if strContains prompt "meter" && strContains prompt "centimeter" then
      scanMeters prompt words
    else if strContains prompt "dollar" || strContains prompt "usd" then
      scanDollar prompt words
    else ""
  if result = "" then could_not_process_msg else result

/-- First numeric token of a token list, with its parsed value. -/
def firstNum : List String → Option PyFloat
  | [] => none
  | w :: ws => if isNumTok w then some (parseVal w) else firstNum ws

/-- A value stored in the dictionary returned by get_currency_rates:
either a rate (a float) or the timestamp string. -/
inductive RateVal
  | num (v : PyFloat)
  | str (s : String)
deriving DecidableEq

/-- Python dictionary assignment d[k] = v on an association list:
replace the first entry with the key, or append a new entry. -/
def dictInsert : List (String × RateVal) → String → RateVal → List (String × RateVal)
  | [], k, v => [(k, v)]
  | p :: d, k, v => if p.1 = k then (k, v) :: d else p :: dictInsert d k v

/-- The fixed fallback table of get_currency_rates, lines 98 to 102 of
app.py, with the float literals as exact decimals and the timestamp
entry stored in the same dictionary. -/
def fallback_rates : List (String × RateVal) :=
  [("USD", RateVal.num ⟨10, 1⟩), ("EUR", RateVal.num ⟨93, 2⟩),
   ("GBP", RateVal.num ⟨79, 2⟩), ("JPY", RateVal.num ⟨15034, 2⟩),
   ("CAD", RateVal.num ⟨135, 2⟩), ("AUD", RateVal.num ⟨153, 2⟩),
   ("CNY", RateVal.num ⟨721, 2⟩), ("INR", RateVal.num ⟨8312, 2⟩),
   ("PKR", RateVal.num ⟨27850, 2⟩),
   ("timestamp", RateVal.str "Using cached rates (may not be current)")]

/-- Outcome of the HTTP GET plus JSON decoding in get_currency_rates:
failure covers a network error, malformed JSON, or a body missing the
expected fields; success carries the result field, the rates mapping and
the last-update string. -/
inductive HttpResult
  | failure (err : String)
  | success (result : String) (rates : List (String × PyFloat)) (time_last_update_utc : String)

/-- get_currency_rates from app.py, lines 83 to 102, as a function of
the HTTP outcome. On a success body the timestamp is assigned into the
same dictionary as the rates; a non-success result field raises, and the
surrounding try turns every raise into the fallback table. -/
def get_currency_rates : HttpResult → List (String × RateVal)
  | HttpResult.failure _ => fallback_rates
  | HttpResult.success res rates ts =>
    if res = "success" then
      dictInsert (rates.map (fun p => (p.1, RateVal.num p.2))) "timestamp" (RateVal.str ts)
    else fallback_rates

/-- Whether a fetch outcome takes the failure path of
get_currency_rates: a raised error or a non-success result field. -/
def isFetchFailure : HttpResult → Prop
  | HttpResult.failure _ => True
  | HttpResult.success res _ _ => res ≠ "success"

/-- The currency list the selection interface builds from the table,
line 231 of app.py: every key except timestamp. -/
def currencies (d : List (String × RateVal)) : List String :=
  (d.map Prod.fst).filter (fun k => k ≠ "timestamp")

/-- A display notice emitted through the UI framework; both kinds render
a message and neither raises. -/
inductive Notice
  | warning (msg : String)
  | errorBox (msg : String)
deriving DecidableEq

/-- What a call to get_gemini_response produces: the notices displayed
on the way and the returned string. The function always returns a
string; no exception escapes it. -/
structure GeminiOutput where
  notices : List Notice
  result : String
deriving DecidableEq

/-- The warning shown when no API key is configured, line 69 of
app.py. -/
def api_key_warning : String := "⚠️ Gemini API key not set. Using fallback mode."

/-- get_gemini_response from app.py, lines 66 to 81, as a function of
the configured key and of the outcome of the single AI call. An empty
key never consults the AI outcome; an AI error is caught, displayed, and
answered with the fallback resolver. -/
def get_gemini_response (apiKey prompt : String) (ai : Except String String) : GeminiOutput :=
  if apiKey = "" then
    { notices := [Notice.warning api_key_warning],
      result := handle_conversion_fallback prompt }
  else
    match ai with
    | Except.ok text => { notices := [], result := text }
    | Except.error e =>
      { notices := [Notice.errorBox ("Error with Gemini API: " ++ e)],
        result := handle_conversion_fallback prompt }


lemma scanMeters_eq (p : String) (ws : List String) :
    scanMeters p ws =
      (match firstNum ws with
       | some v => if strContains p "meter" && strContains p "centimeter" then fmtMeters v else ""
       | none => "") := by
  induction ws with
  | nil => rfl
  | cons w ws ih =>
    cases hw : isNumTok w
    · simp [scanMeters, firstNum, hw, ih]
    · simp [scanMeters, firstNum, hw]

lemma scanDollar_eq (p : String) (ws : List String) :
    scanDollar p ws =
      (match firstNum ws with
       | some v =>
         if strContains p "euro" || strContains p "eur" then fmtEur v
         else if strContains p "pkr" || strContains p "rupee" then fmtPkr v
         else ""
       | none => "") := by
  induction ws with
  | nil => rfl
  | cons w ws ih =>
    cases hw : isNumTok w
    · simp [scanDollar, firstNum, hw, ih]
    · simp [scanDollar, firstNum, hw]

lemma append_right_ne_empty (s t : String) (ht : t.data ≠ []) : s ++ t ≠ "" := by
  intro h
  have h2 := congrArg String.data h
  rw [String.data_append] at h2
  exact ht (List.append_eq_nil.mp h2).2

lemma fmtMeters_ne_empty (v : PyFloat) : fmtMeters v ≠ "" :=
  append_right_ne_empty _ " centimeters" (by decide)

lemma fmtEur_ne_empty (v : PyFloat) : fmtEur v ≠ "" :=
  append_right_ne_empty _ " EUR" (by decide)

lemma fmtPkr_ne_empty (v : PyFloat) : fmtPkr v ≠ "" :=
  append_right_ne_empty _ " PKR" (by decide)

lemma handle_characterization (p : String) :
    handle_conversion_fallback p =
      (if strContains p "meter" && strContains p "centimeter" then
         match firstNum (toWords (strLower p)) with
         | some v => fmtMeters v
         | none => could_not_process_msg
       else if strContains p "dollar" || strContains p "usd" then
         match firstNum (toWords (strLower p)) with
         | some v =>
           if strContains p "euro" || strContains p "eur" then fmtEur v
           else if strContains p "pkr" || strContains p "rupee" then fmtPkr v
           else could_not_process_msg
         | none => could_not_process_msg
       else could_not_process_msg) := by
  simp only [handle_conversion_fallback, scanMeters_eq, scanDollar_eq]
  cases hm : (strContains p "meter" && strContains p "centimeter")
  · cases hd : (strContains p "dollar" || strContains p "usd")
    · simp [hm, hd, could_not_process_msg]
    · simp only [hm, hd, if_true, if_false, Bool.false_eq_true, Bool.true_eq_false]
      cases hfn : firstNum (toWords (strLower p))
      · simp
      · rename_i v
        cases he : (strContains p "euro" || strContains p "eur")
        · cases hp : (strContains p "pkr" || strContains p "rupee")
          · simp [he, hp, could_not_process_msg]
          · simp [he, hp, fmtPkr_ne_empty v]
        · simp [he, fmtEur_ne_empty v]
  · simp only [hm, if_true, Bool.false_eq_true, Bool.true_eq_false]
    cases hfn : firstNum (toWords (strLower p))
    · simp
    · rename_i v
      simp [fmtMeters_ne_empty v]

lemma lookup_dictInsert (d : List (String × RateVal)) (k : String) (v : RateVal) :
    List.lookup k (dictInsert d k v) = some v := by
  induction d with
  | nil => simp [dictInsert, List.lookup]
  | cons p d ih =>
    obtain ⟨a, b⟩ := p
    by_cases hp : a = k
    · subst hp; simp [dictInsert, List.lookup]
    · have hb : (k == a) = false := by
        rw [beq_eq_false_iff_ne]
        exact fun hh => hp hh.symm
      simp [dictInsert, List.lookup, hp, hb, ih]

lemma lookup_timestamp_fallback :
    List.lookup "timestamp" fallback_rates
      = some (RateVal.str "Using cached rates (may not be current)") := by
  decide

lemma dot_mem_stripFirstDot (l : List Char) (h : 2 ≤ l.count '.') :
    '.' ∈ stripFirstDot l := by
  induction l with
  | nil => simp at h
  | cons c cs ih =>
    by_cases hc : c = '.'
    · subst hc
      simp only [stripFirstDot, if_pos rfl]
      have h1 : 1 ≤ cs.count '.' := by
        rw [List.count_cons_self] at h
        omega
      exact List.count_pos_iff.mp h1
    · simp only [stripFirstDot, if_neg hc]
      have h2 : 2 ≤ cs.count '.' := by
        rwa [List.count_cons_of_ne (fun hh => hc hh.symm)] at h
      exact List.mem_cons_of_mem _ (ih h2)

lemma isNumTok_multi_dot (t : String) (h : 2 ≤ t.toList.count '.') :
    isNumTok t = false := by
  have hmem : '.' ∈ stripFirstDot t.toList := dot_mem_stripFirstDot _ h
  have hall : (stripFirstDot t.toList).all Char.isDigit = false := by
    cases hd : (stripFirstDot t.toList).all Char.isDigit
    · rfl
    · have := List.all_eq_true.mp hd '.' hmem
      simp at this
  simp only [isNumTok]
  rw [hall, Bool.and_false]

/-- C1: the claim says the provenance timestamp of get_currency_rates is
stored out-of-band and the returned table never holds the provenance key
inside the same mapping as the currency codes. The code does the
opposite: on a failed fetch and on a successful fetch alike, the
returned dictionary itself maps the key timestamp to the provenance
string, next to the currency codes. -/
theorem timestamp_key_inside_rate_map :
    List.lookup "timestamp" (get_currency_rates (HttpResult.failure "network error"))
      = some (RateVal.str "Using cached rates (may not be current)")
    ∧ List.lookup "timestamp"
        (get_currency_rates (HttpResult.success "success"
          [("USD", ⟨10, 1⟩), ("PKR", ⟨5570, 2⟩)] "Sat, 01 Mar 2025 00:00:01 +0000"))
      = some (RateVal.str "Sat, 01 Mar 2025 00:00:01 +0000") := by
  decide

/-- C2: whenever the AI is unavailable, because the key is empty or the
single AI call errors, get_gemini_response returns exactly the output of
handle_conversion_fallback on the same prompt, surfaces exactly one
non-fatal notice, and, when the key is empty, is independent of the AI
outcome, so no AI call is ever attempted. The function is total: no
failure propagates to the caller. -/
theorem gemini_unavailable_uses_fallback (apiKey prompt : String) (ai : Except String String)
    (h : apiKey = "" ∨ ∃ e, ai = Except.error e) :
    (get_gemini_response apiKey prompt ai).result = handle_conversion_fallback prompt
    ∧ (get_gemini_response apiKey prompt ai).notices.length = 1
    ∧ (apiKey = "" → ∀ ai2, get_gemini_response apiKey prompt ai = get_gemini_response apiKey prompt ai2) := by
  rcases h with h | ⟨e, he⟩
  · subst h
    exact ⟨rfl, rfl, fun _ ai2 => rfl⟩
  · subst he
    by_cases hk : apiKey = ""
    · subst hk
      exact ⟨rfl, rfl, fun _ ai2 => rfl⟩
    · refine ⟨?_, ?_, fun h2 => absurd h2 hk⟩ <;> simp [get_gemini_response, hk]

theorem gemini_unavailable_uses_fallback_witness :
    (get_gemini_response "" "Convert 2 meters to centimeters" (Except.ok "ignored")).result
      = handle_conversion_fallback "Convert 2 meters to centimeters" :=
  (gemini_unavailable_uses_fallback "" "Convert 2 meters to centimeters" (Except.ok "ignored")
    (Or.inl rfl)).1

/-- C3, counterexample: on the exact input 100 USD to PKR the keyword
test of the dollar branch looks for the lower-case strings usd and
dollar inside the original, upper-case prompt, so no branch fires and
the resolver returns the advisory message, not the claimed conversion
string. -/
theorem usd_uppercase_counterexample :
    handle_conversion_fallback "100 USD to PKR" = could_not_process_msg
    ∧ handle_conversion_fallback "100 USD to PKR" ≠ "100.0 USD ≈ 27850.0 PKR" := by
  decide

/-- C3, amended: on the lower-cased input 100 usd to pkr the usd keyword
branch fires, the numeric value 100 is multiplied by the fixed rate
278.50, and the resolver returns the claimed conversion string. -/
theorem usd_lowercase_pkr_conversion :
    handle_conversion_fallback "100 usd to pkr" = "100.0 USD ≈ 27850.0 PKR" := by
  decide

/-- C4: whenever the rate fetch fails, by a raised error or by a
non-success result field, get_currency_rates returns exactly the fixed
fallback table, whose USD entry is the float 1.0 and whose timestamp
entry is the cached-rates provenance string rather than a live
last-update string. -/
theorem rate_fetch_failure_returns_fallback (h : HttpResult) (hf : isFetchFailure h) :
    get_currency_rates h = fallback_rates
    ∧ List.lookup "USD" (get_currency_rates h) = some (RateVal.num ⟨10, 1⟩)
    ∧ List.lookup "timestamp" (get_currency_rates h)
        = some (RateVal.str "Using cached rates (may not be current)") := by
  have hg : get_currency_rates h = fallback_rates := by
    cases h with
    | failure e => rfl
    | success r rates ts =>
      have hr : r ≠ "success" := hf
      simp [get_currency_rates, hr]
  refine ⟨hg, ?_, ?_⟩ <;> rw [hg] <;> decide

theorem rate_fetch_failure_returns_fallback_witness :
    get_currency_rates (HttpResult.failure "connection error") = fallback_rates :=
  (rate_fetch_failure_returns_fallback (HttpResult.failure "connection error") trivial).1

/-- C5: on the exact input Convert 5 meters to centimeters the meter
branch fires, the numeric value 5 is multiplied by 100, and the resolver
returns the claimed string. -/
theorem meters_to_centimeters_example :
    handle_conversion_fallback "Convert 5 meters to centimeters"
      = "5.0 meters = 500.0 centimeters" := by
  decide

/-- C6: on every input whose original text contains both the meter and
centimeter keywords and also a dollar or usd keyword, the result is
exactly the meter-branch computation, the meters-to-centimeters string
of the first numeric token; the currency branch is never evaluated,
first match wins. -/
theorem meter_branch_wins_over_dollar (p : String)
    (hm : (strContains p "meter" && strContains p "centimeter") = true)
    (hd : (strContains p "dollar" || strContains p "usd") = true) :
    handle_conversion_fallback p =
      (match firstNum (toWords (strLower p)) with
       | some v => fmtMeters v
       | none => could_not_process_msg) := by
  rw [handle_characterization]
  simp [hm]

theorem meter_branch_wins_over_dollar_witness :
    handle_conversion_fallback "5 meter to centimeter for a dollar"
      = "5.0 meters = 500.0 centimeters" := by
  have h := meter_branch_wins_over_dollar "5 meter to centimeter for a dollar"
    (by decide) (by decide)
  rw [h]
  decide

/-- C7: the resolver takes its numeric value from the first
whitespace-separated token accepted by the numeric test, as captured by
firstNum: the whole result of handle_conversion_fallback is a function
of that first value alone; a token holding two or more dots is never
numeric; the scan yields the first qualifying token and never a later
one. -/
theorem fallback_first_numeric_token (p : String) :
    (handle_conversion_fallback p =
      (if strContains p "meter" && strContains p "centimeter" then
         match firstNum (toWords (strLower p)) with
         | some v => fmtMeters v
         | none => could_not_process_msg
       else if strContains p "dollar" || strContains p "usd" then
         match firstNum (toWords (strLower p)) with
         | some v =>
           if strContains p "euro" || strContains p "eur" then fmtEur v
           else if strContains p "pkr" || strContains p "rupee" then fmtPkr v
           else could_not_process_msg
         | none => could_not_process_msg
       else could_not_process_msg))
    ∧ (∀ t : String, 2 ≤ t.toList.count '.' → isNumTok t = false)
    ∧ (∀ (t : String) (ws : List String), isNumTok t = true →
        firstNum (t :: ws) = some (parseVal t))
    ∧ (∀ (t : String) (ws : List String), isNumTok t = false →
        firstNum (t :: ws) = firstNum ws) := by
  refine ⟨handle_characterization p, isNumTok_multi_dot, ?_, ?_⟩
  · intro t ws ht
    simp [firstNum, ht]
  · intro t ws ht
    simp [firstNum, ht]

theorem fallback_first_numeric_token_witness :
    isNumTok "1.2.3" = false
    ∧ firstNum ["convert", "2.5", "77"] = some (parseVal "2.5") := by
  constructor
  · exact (fallback_first_numeric_token "x").2.1 "1.2.3" (by decide)
  · rw [(fallback_first_numeric_token "x").2.2.2 "convert" ["2.5", "77"] (by decide)]
    exact (fallback_first_numeric_token "x").2.2.1 "2.5" ["77"] (by decide)

/-- C8: whenever no conversion rule matches, handle_conversion_fallback
returns the literal could-not-process advisory message. The covered
no-match cases are: no token of the lowered prompt is numeric; no
keyword branch matches at all; or the dollar branch is entered but
neither a euro nor a rupee target keyword occurs, so the loop breaks
with an empty result. The function is total, so the message is a normal
return value, never an exception. -/
theorem no_rule_matched_advisory (p : String)
    (h : firstNum (toWords (strLower p)) = none
       ∨ ((strContains p "meter" && strContains p "centimeter") = false
          ∧ (strContains p "dollar" || strContains p "usd") = false)
       ∨ ((strContains p "meter" && strContains p "centimeter") = false
          ∧ (strContains p "euro" || strContains p "eur") = false
          ∧ (strContains p "pkr" || strContains p "rupee") = false)) :
    handle_conversion_fallback p = could_not_process_msg := by
  rw [handle_characterization]
  rcases h with h | ⟨h1, h2⟩ | ⟨h1, h2, h3⟩
  · cases hm : (strContains p "meter" && strContains p "centimeter")
    · cases hd : (strContains p "dollar" || strContains p "usd")
      · simp [hm, hd]
      · simp [hm, hd, h]
    · simp [hm, h]
  · simp [h1, h2]
  · cases hd : (strContains p "dollar" || strContains p "usd")
    · simp [h1, hd]
    · simp only [h1, hd, if_true, if_false, Bool.false_eq_true, Bool.true_eq_false]
      cases hfn : firstNum (toWords (strLower p))
      · simp
      · simp [h2, h3]

theorem no_rule_matched_advisory_witness :
    handle_conversion_fallback "convert apples to oranges" = could_not_process_msg
    ∧ handle_conversion_fallback "50 dollars to gbp" = could_not_process_msg :=
  ⟨no_rule_matched_advisory "convert apples to oranges" (Or.inl (by decide)),
   no_rule_matched_advisory "50 dollars to gbp" (Or.inr (Or.inr (by decide)))⟩

/-- C9: when a key is configured and the single AI call succeeds,
get_gemini_response returns the AI text verbatim as the result, with no
notices and no further parsing or wrapping. -/
theorem gemini_success_passthrough (apiKey prompt text : String) (h : apiKey ≠ "") :
    get_gemini_response apiKey prompt (Except.ok text)
      = { notices := [], result := text } := by
  simp [get_gemini_response, h]

theorem gemini_success_passthrough_witness :
    get_gemini_response "key" "Convert 5 Meter to Foot" (Except.ok "16.4 feet")
      = { notices := [], result := "16.4 feet" } :=
  gemini_success_passthrough "key" "Convert 5 Meter to Foot" "16.4 feet" (by decide)

/-- C10: every table returned by get_currency_rates, the live one and
the fallback one, holds a timestamp key mapping to a string inside the
same dictionary as the currency codes, and the currency list the caller
builds must filter that key out. -/
theorem rates_table_always_has_timestamp (h : HttpResult) :
    (∃ s, List.lookup "timestamp" (get_currency_rates h) = some (RateVal.str s))
    ∧ "timestamp" ∉ currencies (get_currency_rates h) := by
  constructor
  · cases h with
    | failure e => exact ⟨_, lookup_timestamp_fallback⟩
    | success r rates ts =>
      by_cases hr : r = "success"
      · refine ⟨ts, ?_⟩
        simp only [get_currency_rates, hr, if_pos rfl]
        exact lookup_dictInsert _ _ _
      · have hg : get_currency_rates (HttpResult.success r rates ts) = fallback_rates := by
          simp [get_currency_rates, hr]
        rw [hg]
        exact ⟨_, lookup_timestamp_fallback⟩
  · intro hmem
    have := (List.mem_filter.mp hmem).2
    simp at this
